import Mathlib

/-!
Verification of the Lala Android-integration voice-assistant layer.

This file gives a shallow embedding of the `LalaAssistant` façade found in
`android_adapter/integration.py` and of the `VoskRecognizer.process_audio_file`
wrapper found in `android_adapter/vosk_integration.py`, and proves the
testable properties stated for them.

Modelling conventions:
* Python strings are Lean `String`s; the per-code-point operations
  (`str.lower`, `str.strip`, `str.find`, slicing) are implemented over the
  underlying `List Char`.
* Python dicts returned by the pipeline are association lists
  `List (String × PyVal)`; `d.get(k, default)` is `pyGet`, key membership is
  `pyLookup`.
* External collaborators (the agent planner, the AI router, TTS, the Android
  recognizer) are an `Env` record; a call that may raise an exception is an
  `Except String` value carrying the exception message.
* Floats that are never inspected by the code under verification are carried
  opaquely as `PyVal.vFloatLit`.
-/

/-- Values stored in the result dictionaries passed around by the code. -/
inductive PyVal where
  | vNone : PyVal
  | vBool : Bool → PyVal
  | vStr : String → PyVal
  | vInt : Int → PyVal
  | vFloatLit : String → PyVal
  | vDict : List (String × PyVal) → PyVal

/-- A Python dict with string keys, as an insertion-ordered association list. -/
abbrev PyDict := List (String × PyVal)

/-- `d[k]` as an optional lookup (models `k in d` and `d[k]`). -/
def pyLookup (d : PyDict) (k : String) : Option PyVal :=
  match d.find? (fun p => p.1 == k) with
  | some p => some p.2
  | none => none

/-- Python `d.get(k, default)`. -/
def pyGet (d : PyDict) (k : String) (dflt : PyVal) : PyVal :=
  match pyLookup d k with
  | some v => v
  | none => dflt

/-- Python truthiness of a value. -/
def pyTruthy : PyVal → Bool
  | PyVal.vNone => false
  | PyVal.vBool b => b
  | PyVal.vStr s => !(s == "")
  | PyVal.vInt n => !(n == 0)
  | PyVal.vFloatLit s => !(s == "0.0")
  | PyVal.vDict d => !d.isEmpty

/-- Python `a or b` on values: `a` if truthy, else `b`. -/
def pyOr (a b : PyVal) : PyVal :=
  if pyTruthy a then a else b

/-- Python `d[k] = v`: overwrite in place, or append a new key at the end. -/
def pySet (d : PyDict) (k : String) (v : PyVal) : PyDict :=
  match d with
  | [] => [(k, v)]
  | p :: rest => if p.1 == k then (k, v) :: rest else p :: pySet rest k v

/-- Per-code-point lowercasing, modelling `str.lower()`. -/
def lowerStr (s : String) : String :=
  String.mk (s.data.map Char.toLower)

/-- Length in code points, modelling Python `len`. -/
def strLen (s : String) : Nat :=
  s.data.length

/-- `s[n:]`, the suffix of `s` from code-point index `n`. -/
def dropStr (s : String) (n : Nat) : String :=
  String.mk (s.data.drop n)

/-- `str.strip()`: remove whitespace from both ends. -/
def stripStr (s : String) : String :=
  String.mk (((s.data.dropWhile Char.isWhitespace).reverse.dropWhile Char.isWhitespace).reverse)

/-- `p` occurs at the front of `s`. -/
def leadsList (p s : List Char) : Bool :=
  match p, s with
  | [], _ => true
  | _ :: _, [] => false
  | a :: as, b :: bs => a == b && leadsList as bs

/-- Index of the first occurrence of `p` inside `s`, modelling `s.find(p)`
when it succeeds (and `p in s` when it is `some`). -/
def subIndex (p : List Char) : List Char → Option Nat
  | [] => if leadsList p [] then some 0 else none
  | c :: rest =>
    if leadsList p (c :: rest) then some 0
    else (subIndex p rest).map (fun i => i + 1)

/-- The mutable fields of a `LalaAssistant` instance set in `__init__`. -/
structure LalaState where
  user_id : Option Int
  prefer_offline : Bool
  wake_word : String
  is_active : Bool
  is_processing : Bool
  last_command : Option String
  last_response : Option PyVal
  should_stop_background : Bool

/-- External collaborators of `LalaAssistant`.  Each fallible call returns
`Except String`, the error carrying the Python exception message `str(e)`. -/
structure Env where
  is_online : Bool
  agent_planner : String → Option Int → Except String PyDict
  process_ai_request : String → String → Except String PyDict
  speak : PyVal → Except String Bool
  recognize_once : Nat → String

/-- The body of the `try` block of `process_text_command`: planner call, AI
call, response selection, optional TTS, then the success result dict. -/
def run_pipeline (env : Env) (user_id : Option Int) (command_text : String)
    (wait_for_response : Bool) (online_available : Bool) : Except String PyDict :=
  match env.agent_planner command_text user_id with
  | Except.error e => Except.error e
  | Except.ok planning_result =>
    match env.process_ai_request
        ("Responde al usuario que dice: '" ++ command_text ++ "'")
        (if online_available then "auto" else "offline") with
    | Except.error e => Except.error e
    | Except.ok model_response =>
      let response_text :=
        if pyTruthy (pyGet planning_result "success" (PyVal.vBool false)) then
          pyGet planning_result "response" (PyVal.vStr "")
        else
          pyOr (pyGet model_response "text" (PyVal.vStr ""))
               (pyGet model_response "response" (PyVal.vStr ""))
      match (if wait_for_response then env.speak response_text else Except.ok true) with
      | Except.error e => Except.error e
      | Except.ok _ =>
        Except.ok
          [("success", PyVal.vBool true),
           ("response", response_text),
           ("plan", pyGet planning_result "plan" (PyVal.vDict [])),
           ("model", pyGet model_response "model" (PyVal.vStr "offline")),
           ("online", PyVal.vBool online_available)]

/-- `LalaAssistant.process_text_command`: set the processing flag and
`last_command`, run the pipeline under try/except, record `last_response`
on success, clear the processing flag, return the result dict. -/
def process_text_command (env : Env) (st : LalaState) (command_text : String)
    (wait_for_response : Bool) : LalaState × PyDict :=
  -- `is_processing` is set to True and `last_command` to `command_text` before
  -- the try block runs; `is_processing` is reset to False after it on both
  -- paths, so only `last_command` (and, on success, `last_response`) survive
  -- in the state this call returns.
  match run_pipeline env st.user_id command_text wait_for_response
      (env.is_online && !st.prefer_offline) with
  | Except.ok result =>
    ({ st with is_processing := false, last_command := some command_text,
               last_response := some (PyVal.vDict result) }, result)
  | Except.error e =>
    ({ st with is_processing := false, last_command := some command_text },
     [("success", PyVal.vBool false),
      ("response", PyVal.vStr "Lo siento, ocurrió un error al procesar tu solicitud."),
      ("error", PyVal.vStr e)])

/-- `LalaAssistant.process_voice_command`: recognize once, bail out on an
empty recognition, strip everything up to and including the first
case-insensitive occurrence of the wake word, process the remaining text,
and attach `recognized_text` to the result (which, on success, is the same
dict object stored in `last_response`). -/
def process_voice_command (env : Env) (st : LalaState) (max_duration_sec : Nat) :
    LalaState × PyDict :=
  let recognized_text := env.recognize_once max_duration_sec
  if recognized_text = "" then
    (st, [("success", PyVal.vBool false),
          ("response", PyVal.vStr "No se detectó ningún comando de voz."),
          ("recognized_text", PyVal.vStr "")])
  else
    let wake_word_lower := lowerStr st.wake_word
    let command_text :=
      match subIndex wake_word_lower.data (lowerStr recognized_text).data with
      | some i => stripStr (dropStr recognized_text (i + strLen wake_word_lower))
      | none => recognized_text
    let out := process_text_command env st command_text true
    let result2 := pySet out.2 "recognized_text" (PyVal.vStr recognized_text)
    -- On the success path `last_response` aliases the returned dict in Python,
    -- so the key added here is visible through `last_response` as well.
    let st2 :=
      if pyTruthy (pyGet out.2 "success" (PyVal.vBool false)) then
        { out.1 with last_response := some (PyVal.vDict result2) }
      else out.1
    (st2, result2)

/-- `LalaAssistant.set_wake_word`: reject empty or single-character words,
otherwise install the new wake word. -/
def set_wake_word (st : LalaState) (wake_word : String) : LalaState × Bool :=
  if wake_word = "" ∨ strLen wake_word < 2 then (st, false)
  else ({ st with wake_word := wake_word }, true)

/-- Observable actions of one pass of the background listening loop body. -/
inductive BgAction where
  | sleepMs : Nat → BgAction
  | voiceCmd : BgAction
  | callbackFired : BgAction
deriving DecidableEq

/-- One iteration of the body of `background_listening_thread`: a fixed
2-second sleep, then, when the assistant is idle and no stop was requested
in the meantime (`stopMid` is the flag value re-read after the sleep),
one `process_voice_command` whose successful result is handed to the
callback when one was supplied. -/
def background_iteration (env : Env) (st : LalaState) (stopMid cbSupplied : Bool) :
    LalaState × List BgAction :=
  if st.is_processing = false ∧ stopMid = false then
    let out := process_voice_command env st 5
    if cbSupplied = true ∧ pyTruthy (pyGet out.2 "success" (PyVal.vBool false)) = true then
      (out.1, [BgAction.sleepMs 2000, BgAction.voiceCmd, BgAction.callbackFired])
    else
      (out.1, [BgAction.sleepMs 2000, BgAction.voiceCmd])
  else (st, [BgAction.sleepMs 2000])

/-- The `while not self.should_stop_background` loop of
`background_listening_thread`, abstracted over the flag's value at each
guard check (`stop n` is `should_stop_background` as read at the n-th
check).  The result is `some j` when the loop exits at guard check `j`
(after `j` iterations), `none` when the supplied fuel ran out first. -/
def background_loop (stop : Nat → Bool) : Nat → Nat → Option Nat
  | 0, _ => none
  | fuel + 1, n => if stop n then some n else background_loop stop fuel (n + 1)

/-- The facts `process_audio_file` reads from an opened WAV file and from the
Kaldi recognizer fed with it: header fields, then for each non-empty chunk of
frames the JSON-decoded `Result()` when `AcceptWaveform` returned true (or
`none` when it returned false), and the JSON-decoded `FinalResult()`. -/
structure WavFile where
  nchannels : Nat
  sampwidth : Nat
  comptype : String
  chunkOutcomes : List (Option PyDict)
  finalResult : PyDict

/-- The `"text"` values collected from the intermediate recognizer results:
a result contributes exactly when it has a truthy `"text"` entry. -/
def collectTexts : List (Option PyDict) → List PyVal
  | [] => []
  | none :: rest => collectTexts rest
  | some d :: rest =>
    match pyLookup d "text" with
    | some t => if pyTruthy t then t :: collectTexts rest else collectTexts rest
    | none => collectTexts rest

/-- The `"text"` contribution of the final recognizer result. -/
def finalTexts (final : PyDict) : List PyVal :=
  match pyLookup final "text" with
  | some t => if pyTruthy t then [t] else []
  | none => []

/-- All values are strings (`" ".join` raises `TypeError` otherwise). -/
def allStrings : List PyVal → Option (List String)
  | [] => some []
  | PyVal.vStr s :: rest =>
    match allStrings rest with
    | some ss => some (s :: ss)
    | none => none
  | _ :: _ => none

/-- `" ".join(results)`. -/
def joinWithSpace : List String → String
  | [] => ""
  | [s] => s
  | s :: rest => s ++ " " ++ joinWithSpace rest

/-- `VoskRecognizer.process_audio_file`: guard on initialization and file
existence, validate the WAV header (mono, 16-bit, uncompressed PCM), feed
the chunks to the recognizer collecting the decoded texts, and return the
joined, trimmed text.  The second component counts the audio chunks passed
to the recognizer. -/
def process_audio_file (initialized fileOk : Bool) (audio_file_path : String)
    (wav : Except String WavFile) : PyDict × Nat :=
  if initialized = false then
    ([("success", PyVal.vBool false),
      ("error", PyVal.vStr "Reconocedor no inicializado")], 0)
  else if fileOk = false then
    ([("success", PyVal.vBool false),
      ("error", PyVal.vStr ("Archivo no encontrado: " ++ audio_file_path))], 0)
  else
    match wav with
    | Except.error e =>
      ([("success", PyVal.vBool false), ("error", PyVal.vStr e)], 0)
    | Except.ok wf =>
      if wf.nchannels ≠ 1 ∨ wf.sampwidth ≠ 2 ∨ wf.comptype ≠ "NONE" then
        ([("success", PyVal.vBool false),
          ("error", PyVal.vStr "Formato de audio no soportado. Usar WAV mono 16-bit PCM.")], 0)
      else
        match allStrings (collectTexts wf.chunkOutcomes ++ finalTexts wf.finalResult) with
        | none =>
          ([("success", PyVal.vBool false),
            ("error", PyVal.vStr "sequence item: expected str instance")],
           wf.chunkOutcomes.length)
        | some strs =>
          ([("success", PyVal.vBool true),
            ("text", PyVal.vStr (stripStr (joinWithSpace strs))),
            ("confidence", pyGet wf.finalResult "confidence" (PyVal.vFloatLit "0.0")),
            ("partial", PyVal.vBool false)],
           wf.chunkOutcomes.length)

/-- The assistant state produced by `__init__` with its default arguments
(`user_id=None`, `prefer_offline=False`, `wake_word="Lala"`). -/
def initState : LalaState :=
  { user_id := none
    prefer_offline := false
    wake_word := "Lala"
    is_active := false
    is_processing := false
    last_command := none
    last_response := none
    should_stop_background := false }

/-- A planner answer on its success path. -/
def plannerOkDict : PyDict :=
  [("success", PyVal.vBool true),
   ("response", PyVal.vStr "hecho"),
   ("plan", PyVal.vDict [("action", PyVal.vStr "none")])]

/-- An AI-router answer. -/
def modelOkDict : PyDict :=
  [("text", PyVal.vStr "hola"), ("model", PyVal.vStr "remote")]

/-- An environment in which every external call succeeds and the recognizer
hears an utterance containing the wake word. -/
def envOk : Env :=
  { is_online := true
    agent_planner := fun _ _ => Except.ok plannerOkDict
    process_ai_request := fun _ _ => Except.ok modelOkDict
    speak := fun _ => Except.ok true
    recognize_once := fun _ => "oye Lala qué hora es" }

/-- Like `envOk`, but the planner raises. -/
def envFail : Env :=
  { envOk with agent_planner := fun _ _ => Except.error "boom" }

/-- Like `envOk`, but the recognizer hears nothing. -/
def envSilent : Env :=
  { envOk with recognize_once := fun _ => "" }

/-- Like `envOk`, but the utterance does not contain the wake word at all. -/
def envNoWake : Env :=
  { envOk with recognize_once := fun _ => "hello world" }

/-- Every dict `run_pipeline` returns on its success path has this
five-entry shape, with `success = True` and `online` echoing the flag. -/
theorem run_pipeline_ok_shape (env : Env) (u : Option Int) (c : String)
    (w o : Bool) (r : PyDict) (h : run_pipeline env u c w o = Except.ok r) :
    ∃ rt pl md, r =
      [("success", PyVal.vBool true), ("response", rt), ("plan", pl),
       ("model", md), ("online", PyVal.vBool o)] := by
  simp only [run_pipeline] at h
  split at h
  · exact absurd h (by simp)
  · split at h
    · exact absurd h (by simp)
    · split at h
      · exact absurd h (by simp)
      · exact ⟨_, _, _, (Except.ok.inj h).symm⟩

/-- `process_text_command` always records its argument in `last_command`. -/
theorem ptc_last_command (env : Env) (st : LalaState) (c : String) (w : Bool) :
    (process_text_command env st c w).1.last_command = some c := by
  unfold process_text_command
  split <;> rfl

/-- `process_text_command` always returns with the processing flag cleared. -/
theorem ptc_is_processing (env : Env) (st : LalaState) (c : String) (w : Bool) :
    (process_text_command env st c w).1.is_processing = false := by
  unfold process_text_command
  split <;> rfl

/-- Claim C1: for every input string `command_text`,
`LalaAssistant.process_text_command(command_text)` returns a dict containing
the keys `"success"` and `"response"`, and on return the assistant's
`last_command` field equals `command_text`, on every call and regardless of
how the pipeline fares. -/
theorem claim_c1_result_keys_and_last_command (env : Env) (st : LalaState)
    (command_text : String) (wait : Bool) :
    (pyLookup (process_text_command env st command_text wait).2 "success").isSome = true ∧
    (pyLookup (process_text_command env st command_text wait).2 "response").isSome = true ∧
    (process_text_command env st command_text wait).1.last_command = some command_text := by
  refine ⟨?_, ?_, ptc_last_command env st command_text wait⟩ <;>
  · unfold process_text_command
    cases h : run_pipeline env st.user_id command_text wait
        (env.is_online && !st.prefer_offline) with
    | ok r =>
      obtain ⟨rt, pl, md, rfl⟩ := run_pipeline_ok_shape _ _ _ _ _ _ h
      simp [pyLookup]
    | error e => simp [pyLookup]

/-- Claim C7: whenever the pipeline inside `process_text_command` raises an
exception (message `e`), the method catches it and returns the error dict
with `success = False` and the `error` key holding the message; the call
still returns normally (the embedding is a total function). -/
theorem claim_c7_exception_to_error_dict (env : Env) (st : LalaState)
    (c : String) (w : Bool) (e : String)
    (h : run_pipeline env st.user_id c w (env.is_online && !st.prefer_offline) =
      Except.error e) :
    (process_text_command env st c w).2 =
      [("success", PyVal.vBool false),
       ("response", PyVal.vStr "Lo siento, ocurrió un error al procesar tu solicitud."),
       ("error", PyVal.vStr e)] := by
  unfold process_text_command
  rw [h]

/-- Witness for claim C7 at a planner that raises `"boom"`. -/
theorem claim_c7_witness :
    run_pipeline envFail initState.user_id "hola" true
      (envFail.is_online && !initState.prefer_offline) = Except.error "boom" ∧
    (process_text_command envFail initState "hola" true).2 =
      [("success", PyVal.vBool false),
       ("response", PyVal.vStr "Lo siento, ocurrió un error al procesar tu solicitud."),
       ("error", PyVal.vStr "boom")] :=
  ⟨rfl, claim_c7_exception_to_error_dict envFail initState "hola" true "boom" rfl⟩

/-- Claim C10: every call to `process_text_command` returns with
`is_processing = False`; `last_response` is set to the returned dict exactly
on the success path and is left unchanged when an exception was caught. -/
theorem claim_c10_processing_flag_and_last_response (env : Env) (st : LalaState)
    (c : String) (w : Bool) :
    (process_text_command env st c w).1.is_processing = false ∧
    (∀ r, run_pipeline env st.user_id c w (env.is_online && !st.prefer_offline) =
        Except.ok r →
      (process_text_command env st c w).1.last_response =
        some (PyVal.vDict (process_text_command env st c w).2)) ∧
    (∀ e, run_pipeline env st.user_id c w (env.is_online && !st.prefer_offline) =
        Except.error e →
      (process_text_command env st c w).1.last_response = st.last_response) := by
  refine ⟨ptc_is_processing env st c w, ?_, ?_⟩
  · intro r h
    unfold process_text_command
    rw [h]
  · intro e h
    unfold process_text_command
    rw [h]

/-- Witness for claim C10: a succeeding call and a failing call. -/
theorem claim_c10_witness :
    (process_text_command envOk initState "hola" true).1.is_processing = false ∧
    (process_text_command envOk initState "hola" true).1.last_response =
      some (PyVal.vDict (process_text_command envOk initState "hola" true).2) ∧
    (process_text_command envFail initState "hola" true).1.last_response =
      initState.last_response :=
  ⟨(claim_c10_processing_flag_and_last_response envOk initState "hola" true).1,
   (claim_c10_processing_flag_and_last_response envOk initState "hola" true).2.1 _ rfl,
   (claim_c10_processing_flag_and_last_response envFail initState "hola" true).2.2 "boom" rfl⟩

/-- Claim C3: `set_wake_word` rejects every string shorter than 2 code points
(including the empty string) leaving the whole state unchanged, and installs
every string of length at least 2, returning True. -/
theorem claim_c3_set_wake_word (st : LalaState) (w : String) :
    (strLen w < 2 → set_wake_word st w = (st, false)) ∧
    (2 ≤ strLen w → set_wake_word st w = ({ st with wake_word := w }, true)) := by
  constructor
  · intro h
    unfold set_wake_word
    rw [if_pos (Or.inr h)]
  · intro h
    unfold set_wake_word
    rw [if_neg]
    rintro (rfl | hlt)
    · exact absurd h (by decide)
    · omega

/-- Witness for claim C3: `"x"` is rejected, `"Oye"` is installed. -/
theorem claim_c3_witness :
    set_wake_word initState "x" = (initState, false) ∧
    set_wake_word initState "Oye" = ({ initState with wake_word := "Oye" }, true) :=
  ⟨(claim_c3_set_wake_word initState "x").1 (by decide),
   (claim_c3_set_wake_word initState "Oye").2 (by decide)⟩

/-- Lowercasing preserves the length in code points. -/
theorem strLen_lowerStr (s : String) : strLen (lowerStr s) = strLen s := by
  simp [strLen, lowerStr]

/-- Claim C2: when the recognized utterance contains the wake word
(case-insensitively, first occurrence at index `i`), the command text handed
to `process_text_command` — observable as the `last_command` it records — is
the suffix of the utterance after that occurrence of the wake word, with
surrounding whitespace trimmed. -/
theorem claim_c2_wake_word_stripping (env : Env) (st : LalaState) (i : Nat)
    (hne : env.recognize_once 5 ≠ "")
    (hfind : subIndex (lowerStr st.wake_word).data
        (lowerStr (env.recognize_once 5)).data = some i) :
    (process_voice_command env st 5).1.last_command =
      some (stripStr (dropStr (env.recognize_once 5) (i + strLen st.wake_word))) := by
  simp only [process_voice_command]
  rw [if_neg hne]
  rw [hfind, ← strLen_lowerStr st.wake_word]
  split <;> simp [ptc_last_command]

/-- Witness for claim C2: in `"oye Lala qué hora es"` with wake word
`"Lala"`, the first case-insensitive occurrence is at index 4 and the
command recorded is the trimmed suffix after it. -/
theorem claim_c2_witness :
    envOk.recognize_once 5 ≠ "" ∧
    subIndex (lowerStr initState.wake_word).data
      (lowerStr (envOk.recognize_once 5)).data = some 4 ∧
    (process_voice_command envOk initState 5).1.last_command =
      some (stripStr (dropStr (envOk.recognize_once 5) (4 + strLen initState.wake_word))) :=
  ⟨by decide, by decide,
   claim_c2_wake_word_stripping envOk initState 4 (by decide) (by decide)⟩

/-- Claim C9: when the recognizer returns the empty string,
`process_voice_command` returns the failure dict with empty
`recognized_text` and a non-empty response, and leaves the assistant state
(in particular `last_command` and `last_response`) untouched —
`process_text_command` is never reached. -/
theorem claim_c9_empty_recognition (env : Env) (st : LalaState)
    (h : env.recognize_once 5 = "") :
    process_voice_command env st 5 =
      (st, [("success", PyVal.vBool false),
            ("response", PyVal.vStr "No se detectó ningún comando de voz."),
            ("recognized_text", PyVal.vStr "")]) ∧
    pyTruthy (pyGet (process_voice_command env st 5).2 "response" (PyVal.vStr "")) = true := by
  have h1 : process_voice_command env st 5 =
      (st, [("success", PyVal.vBool false),
            ("response", PyVal.vStr "No se detectó ningún comando de voz."),
            ("recognized_text", PyVal.vStr "")]) := by
    simp only [process_voice_command, h]
    simp
  exact ⟨h1, by rw [h1]; rfl⟩

/-- Witness for claim C9 at a silent recognizer. -/
theorem claim_c9_witness :
    process_voice_command envSilent initState 5 =
      (initState, [("success", PyVal.vBool false),
                   ("response", PyVal.vStr "No se detectó ningún comando de voz."),
                   ("recognized_text", PyVal.vStr "")]) ∧
    pyTruthy (pyGet (process_voice_command envSilent initState 5).2 "response"
      (PyVal.vStr "")) = true :=
  claim_c9_empty_recognition envSilent initState rfl

/-- Counterexample to claim C5 as stated: the utterance `"hello world"` does
not begin with the wake word `"Lala"` (not even case-insensitively), yet the
whole utterance is still processed as a command — `last_command` moves from
`none` to the full utterance. -/
theorem claim_c5_counterexample :
    leadsList (lowerStr initState.wake_word).data
      (lowerStr (envNoWake.recognize_once 5)).data = false ∧
    initState.last_command = none ∧
    (process_voice_command envNoWake initState 5).1.last_command =
      some "hello world" :=
  ⟨by decide, rfl, by decide⟩

/-- Claim C5 (amended): a command is processed from every non-empty
recognized utterance, whether or not the wake word prefixes it: the command
is the trimmed suffix after the first case-insensitive occurrence of the
wake word when one exists, and the entire utterance otherwise. -/
theorem claim_c5_amended_every_utterance_processed (env : Env) (st : LalaState)
    (hne : env.recognize_once 5 ≠ "") :
    (process_voice_command env st 5).1.last_command =
      some (match subIndex (lowerStr st.wake_word).data
              (lowerStr (env.recognize_once 5)).data with
            | some i => stripStr (dropStr (env.recognize_once 5) (i + strLen st.wake_word))
            | none => env.recognize_once 5) := by
  simp only [process_voice_command]
  rw [if_neg hne]
  cases hfind : subIndex (lowerStr st.wake_word).data
      (lowerStr (env.recognize_once 5)).data with
  | some i =>
    rw [← strLen_lowerStr st.wake_word]
    split <;> simp [ptc_last_command]
  | none =>
    split <;> simp [ptc_last_command]

/-- Witness for the amended claim C5 at the wake-word-free utterance. -/
theorem claim_c5_witness :
    envNoWake.recognize_once 5 ≠ "" ∧
    (process_voice_command envNoWake initState 5).1.last_command =
      some (match subIndex (lowerStr initState.wake_word).data
              (lowerStr (envNoWake.recognize_once 5)).data with
            | some i =>
              stripStr (dropStr (envNoWake.recognize_once 5) (i + strLen initState.wake_word))
            | none => envNoWake.recognize_once 5) :=
  ⟨by decide,
   claim_c5_amended_every_utterance_processed envNoWake initState (by decide)⟩

/-- Claim C6: in every iteration of the background listening loop, the
callback fires exactly when one was supplied, the pipeline actually ran
(assistant idle, no stop requested mid-iteration) and its result's
`"success"` field is truthy; and the iteration's first action is the fixed
2-second wait. -/
theorem claim_c6_callback_exactly_on_success (env : Env) (st : LalaState)
    (stopMid cb : Bool) :
    (background_iteration env st stopMid cb).2.head? = some (BgAction.sleepMs 2000) ∧
    (BgAction.callbackFired ∈ (background_iteration env st stopMid cb).2 ↔
      (cb = true ∧ st.is_processing = false ∧ stopMid = false ∧
       pyTruthy (pyGet (process_voice_command env st 5).2 "success"
         (PyVal.vBool false)) = true)) := by
  simp only [background_iteration]
  split
  · next hrun =>
    split
    · next hcb =>
      refine ⟨rfl, ?_⟩
      constructor
      · intro _
        exact ⟨hcb.1, hrun.1, hrun.2, hcb.2⟩
      · intro _
        simp
    · next hcb =>
      refine ⟨rfl, ?_⟩
      constructor
      · intro hmem
        simp at hmem
      · intro hall
        exact absurd ⟨hall.1, hall.2.2.2⟩ hcb
  · next hrun =>
    refine ⟨rfl, ?_⟩
    constructor
    · intro hmem
      simp at hmem
    · intro hall
      exact absurd ⟨hall.2.1, hall.2.2.1⟩ hrun

/-- Claim C4: for any schedule of the `should_stop_background` flag that is
set (and stays set) from guard check `k` on, the background listening loop
exits — `background_loop` returns `some j` rather than running out of fuel —
after at most `k` iterations: once the flag is `True`, the loop body never
starts another iteration. -/
theorem claim_c4_loop_exits_after_stop (stop : Nat → Bool) (k : Nat)
    (hk : ∀ m, k ≤ m → stop m = true) :
    ∃ j, background_loop stop (k + 1) 0 = some j ∧ j ≤ k := by
  have main : ∀ fuel n, n ≤ k → k < n + fuel →
      ∃ j, background_loop stop fuel n = some j ∧ j ≤ k := by
    intro fuel
    induction fuel with
    | zero => intro n h1 h2; omega
    | succ f ih =>
      intro n h1 h2
      cases hs : stop n with
      | true => exact ⟨n, by simp [background_loop, hs], h1⟩
      | false =>
        have hn : n < k := by
          rcases Nat.lt_or_ge n k with h | h
          · exact h
          · rw [hk n h] at hs; cases hs
        obtain ⟨j, hj, hjk⟩ := ih (n + 1) (by omega) (by omega)
        exact ⟨j, by simp [background_loop, hs, hj], hjk⟩
  exact main (k + 1) 0 (Nat.zero_le k) (by omega)

/-- Witness for claim C4: flag already set at the first guard check. -/
theorem claim_c4_witness :
    ∃ j, background_loop (fun _ => true) (0 + 1) 0 = some j ∧ j ≤ 0 :=
  claim_c4_loop_exits_after_stop (fun _ => true) 0 (fun _ _ => rfl)

/-- Claim C8: `process_audio_file` rejects every opened WAV file that is not
mono, 16-bit, uncompressed PCM with a `success = False` error dict and feeds
no audio to the recognizer; on a valid format, the `"text"` it returns is
the recognizer's non-empty decoded `"text"` fields joined with single spaces
and trimmed, with `success = True`. -/
theorem claim_c8_format_validation_and_text :
    (∀ (path : String) (wf : WavFile),
      ¬(wf.nchannels = 1 ∧ wf.sampwidth = 2 ∧ wf.comptype = "NONE") →
      process_audio_file true true path (Except.ok wf) =
        ([("success", PyVal.vBool false),
          ("error", PyVal.vStr "Formato de audio no soportado. Usar WAV mono 16-bit PCM.")],
         0)) ∧
    (∀ (path : String) (wf : WavFile) (strs : List String),
      wf.nchannels = 1 → wf.sampwidth = 2 → wf.comptype = "NONE" →
      allStrings (collectTexts wf.chunkOutcomes ++ finalTexts wf.finalResult) = some strs →
      pyLookup (process_audio_file true true path (Except.ok wf)).1 "text" =
        some (PyVal.vStr (stripStr (joinWithSpace strs))) ∧
      pyGet (process_audio_file true true path (Except.ok wf)).1 "success"
        (PyVal.vBool false) = PyVal.vBool true) := by
  constructor
  · intro path wf hbad
    show (if wf.nchannels ≠ 1 ∨ wf.sampwidth ≠ 2 ∨ wf.comptype ≠ "NONE" then _ else _) = _
    rw [if_pos (by tauto)]
  · intro path wf strs h1 h2 h3 hstrs
    have hred : process_audio_file true true path (Except.ok wf) =
        match allStrings (collectTexts wf.chunkOutcomes ++ finalTexts wf.finalResult) with
        | none =>
          ([("success", PyVal.vBool false),
            ("error", PyVal.vStr "sequence item: expected str instance")],
           wf.chunkOutcomes.length)
        | some strs =>
          ([("success", PyVal.vBool true),
            ("text", PyVal.vStr (stripStr (joinWithSpace strs))),
            ("confidence", pyGet wf.finalResult "confidence" (PyVal.vFloatLit "0.0")),
            ("partial", PyVal.vBool false)],
           wf.chunkOutcomes.length) := by
      show (if wf.nchannels ≠ 1 ∨ wf.sampwidth ≠ 2 ∨ wf.comptype ≠ "NONE" then _ else _) = _
      rw [if_neg (by simp [h1, h2, h3])]
    rw [hred, hstrs]
    exact ⟨rfl, rfl⟩

/-- A WAV header the format check rejects (stereo). -/
def wavBad : WavFile :=
  { nchannels := 2, sampwidth := 2, comptype := "NONE",
    chunkOutcomes := [], finalResult := [] }

/-- A valid mono 16-bit PCM file with three recognizer results, one of them
with an empty `"text"` and one chunk not accepted. -/
def wavOk : WavFile :=
  { nchannels := 1, sampwidth := 2, comptype := "NONE",
    chunkOutcomes :=
      [some [("text", PyVal.vStr "hola")],
       none,
       some [("text", PyVal.vStr "")],
       some [("text", PyVal.vStr "mundo")]],
    finalResult := [("text", PyVal.vStr "adiós"), ("confidence", PyVal.vFloatLit "0.9")] }

/-- Witness for claim C8: the stereo file is rejected without feeding audio;
the valid file yields the joined trimmed text with `success = True`. -/
theorem claim_c8_witness :
    process_audio_file true true "a.wav" (Except.ok wavBad) =
      ([("success", PyVal.vBool false),
        ("error", PyVal.vStr "Formato de audio no soportado. Usar WAV mono 16-bit PCM.")],
       0) ∧
    pyLookup (process_audio_file true true "a.wav" (Except.ok wavOk)).1 "text" =
      some (PyVal.vStr (stripStr (joinWithSpace ["hola", "mundo", "adiós"]))) ∧
    pyGet (process_audio_file true true "a.wav" (Except.ok wavOk)).1 "success"
      (PyVal.vBool false) = PyVal.vBool true :=
  ⟨claim_c8_format_validation_and_text.1 "a.wav" wavBad (by decide),
   (claim_c8_format_validation_and_text.2 "a.wav" wavOk ["hola", "mundo", "adiós"]
     rfl rfl rfl rfl).1,
   (claim_c8_format_validation_and_text.2 "a.wav" wavOk ["hola", "mundo", "adiós"]
     rfl rfl rfl rfl).2⟩
